import Mathlib

/-!
Shallow embedding of the user/policy microservice (Go) for specification
checking.  The embedding follows the source layout:

* `models.User` — `internal/models/user.go`
* `DynamoUserRepository` — `internal/repository/dynamo_repository.go`,
  with the DynamoDB table modelled as an association list keyed by the
  user id (attribute marshaling is out of scope per the spec) and
  infrastructure failure injected through a `storeOk : Bool` flag.
* `KafkaProducer` — `internal/kafka/producer.go`, modelled as a log of
  attempted and delivered messages, with transport failure injected
  through a `publishOk : Bool` flag.
* `UserService` — `internal/service/user_service.go`, the write
  orchestrator sequencing commit (repository) and notify (Kafka).
* The EPM service (`internal/service/epm_service.go` et al. from the EPM
  readme) is embedded analogously further below.

Go's `json.Marshal` of the entity structs is embedded explicitly as a
field list (`User.jsonFields`) plus a renderer, since the struct tags
carry no `omitempty`: every field is emitted, a nil slice as `null`.
-/

namespace models

/-- Go struct `models.User`.  `Policies []string` is `none` when the Go
slice is nil (serialized as JSON `null`). -/
structure User where
  ID : String
  Name : String
  Email : String
  Policies : Option (List String)
deriving DecidableEq, Repr

end models

/-- JSON values that occur in the marshaled entities of this service. -/
inductive JVal where
  | str (s : String)
  | arr (xs : List String)
  | null
deriving DecidableEq, Repr

/-- Render a JSON string literal (the ids and names used here need no
escaping). -/
def jsonQuote (s : String) : String := "\"" ++ s ++ "\""

/-- Render one JSON value. -/
def JVal.render : JVal → String
  | .str s => jsonQuote s
  | .arr xs => "[" ++ String.intercalate "," (xs.map jsonQuote) ++ "]"
  | .null => "null"

/-- Render an object from its field list, in declaration order, as Go's
`json.Marshal` does for a struct. -/
def renderObj (fs : List (String × JVal)) : String :=
  "\x7b" ++ String.intercalate "," (fs.map (fun p => jsonQuote p.1 ++ ":" ++ JVal.render p.2)) ++ "\x7d"

/-- Field list produced by `json.Marshal` on `models.User`: the struct
tags are `id`, `name`, `email`, `policies` and carry no `omitempty`, so
all four fields are always emitted; a nil `Policies` slice becomes
`null`. -/
def models.User.jsonFields (u : models.User) : List (String × JVal) :=
  [ ("id", .str u.ID)
  , ("name", .str u.Name)
  , ("email", .str u.Email)
  , ("policies", match u.Policies with | none => .null | some xs => .arr xs) ]

/-- Result of `json.Marshal(user)` in `UserService.publishEvent`. -/
def models.User.marshal (u : models.User) : String :=
  renderObj u.jsonFields

/-- Error outcomes visible in the embedded code: `user not found`
(`errors.New` in `GetUser`), DynamoDB connectivity failure, Kafka
transport failure. -/
inductive Err where
  | userNotFound
  | storeUnavailable
  | publishFailed
deriving DecidableEq, Repr

/-- The DynamoDB `Users` table, keyed by the user id. -/
abbrev Store := List (String × models.User)

namespace Store

/-- Lookup by primary key (`GetItem`). -/
def get (st : Store) (id : String) : Option models.User :=
  (st.find? (fun p => p.1 == id)).map (fun p => p.2)

/-- Remove a key (`DeleteItem`): removal of an absent key is a no-op. -/
def del (st : Store) (id : String) : Store :=
  st.filter (fun p => p.1 != id)

/-- Unconditional `PutItem`: replaces any record with the same id. -/
def put (st : Store) (u : models.User) : Store :=
  (u.ID, u) :: del st u.ID

end Store

namespace DynamoUserRepository

/-- `DynamoUserRepository.CreateUser`: marshal and `PutItem`; the only
failure is store unavailability (`storeOk = false`). -/
def CreateUser (storeOk : Bool) (st : Store) (u : models.User) : Except Err Store :=
  if storeOk then .ok (st.put u) else .error .storeUnavailable

/-- `DynamoUserRepository.GetUser`: `GetItem`; a nil `result.Item` yields
`errors.New("user not found")`. -/
def GetUser (storeOk : Bool) (st : Store) (id : String) : Except Err models.User :=
  if storeOk then
    match st.get id with
    | some u => .ok u
    | none => .error .userNotFound
  else .error .storeUnavailable

/-- `DynamoUserRepository.UpdateUser` is literally
`return r.CreateUser(ctx, user)` (the source comments it
`// Simulate upsert`). -/
def UpdateUser (storeOk : Bool) (st : Store) (u : models.User) : Except Err Store :=
  CreateUser storeOk st u

/-- `DynamoUserRepository.DeleteUser`: unconditional `DeleteItem`. -/
def DeleteUser (storeOk : Bool) (st : Store) (id : String) : Except Err Store :=
  if storeOk then .ok (st.del id) else .error .storeUnavailable

end DynamoUserRepository

/-- One Kafka message: `kafka.Message{Key, Value}`. -/
structure KafkaMessage where
  key : String
  value : String
deriving DecidableEq, Repr

/-- Observable history of the Kafka producer: every `PublishEvent` call
is an attempt; a delivered message is an attempt whose transport write
succeeded. -/
structure KafkaLog where
  attempts : List KafkaMessage
  delivered : List KafkaMessage
deriving DecidableEq, Repr

namespace KafkaProducer

/-- `KafkaProducer.PublishEvent(key, value)`: writes one message with the
given key and value; on transport failure it logs and returns the error.
`publishOk` injects the transport outcome. -/
def PublishEvent (publishOk : Bool) (k : KafkaLog) (key value : String) :
    KafkaLog × Option Err :=
  let m : KafkaMessage := ⟨key, value⟩
  if publishOk then (⟨k.attempts ++ [m], k.delivered ++ [m]⟩, none)
  else (⟨k.attempts ++ [m], k.delivered⟩, some .publishFailed)

end KafkaProducer

/-- State threaded through the orchestrator: the record store and the
Kafka producer history. -/
structure ServiceState where
  store : Store
  kafka : KafkaLog
deriving DecidableEq, Repr

namespace UserService

/-- `UserService.publishEvent(eventType, user)`: marshals the user and
calls `s.kafka.PublishEvent(eventType, string(msg))`, discarding the
returned error. -/
def publishEvent (publishOk : Bool) (s : ServiceState) (eventType : String)
    (u : models.User) : ServiceState :=
  let msg := u.marshal
  let r := KafkaProducer.PublishEvent publishOk s.kafka eventType msg
  { s with kafka := r.1 }

/-- `UserService.CreateUser`: commit via the repository; publish a
`create_user` event only when the commit returned nil; return the commit
error. -/
def CreateUser (storeOk publishOk : Bool) (s : ServiceState) (u : models.User) :
    ServiceState × Option Err :=
  match DynamoUserRepository.CreateUser storeOk s.store u with
  | .ok st => (publishEvent publishOk { s with store := st } "create_user" u, none)
  | .error e => (s, some e)

/-- `UserService.GetUser`: `return s.repo.GetUser(ctx, id)`. -/
def GetUser (storeOk : Bool) (s : ServiceState) (id : String) :
    ServiceState × Except Err models.User :=
  (s, DynamoUserRepository.GetUser storeOk s.store id)

/-- `UserService.UpdateUser`: like `CreateUser` with event type
`update_user`. -/
def UpdateUser (storeOk publishOk : Bool) (s : ServiceState) (u : models.User) :
    ServiceState × Option Err :=
  match DynamoUserRepository.UpdateUser storeOk s.store u with
  | .ok st => (publishEvent publishOk { s with store := st } "update_user" u, none)
  | .error e => (s, some e)

/-- `UserService.DeleteUser`: commit the delete; on success publish a
`delete_user` event whose payload is `models.User{ID: id}` (all other
fields zero-valued). -/
def DeleteUser (storeOk publishOk : Bool) (s : ServiceState) (id : String) :
    ServiceState × Option Err :=
  match DynamoUserRepository.DeleteUser storeOk s.store id with
  | .ok st =>
      (publishEvent publishOk { s with store := st } "delete_user" ⟨id, "", "", none⟩, none)
  | .error e => (s, some e)

end UserService

namespace models

/-- Go struct `models.EPMPolicy` (EPM service). -/
structure EPMPolicy where
  ID : String
  Name : String
  Rules : String
deriving DecidableEq, Repr

/-- Go struct `models.EPMAudit` (EPM service). -/
structure EPMAudit where
  ID : String
  PolicyID : String
  Timestamp : String
  Action : String
  Status : String
deriving DecidableEq, Repr

/-- Result of `json.Marshal(policy)` in `EPMService.publishEvent`:
struct tags `id`, `name`, `rules`, no `omitempty`. -/
def EPMPolicy.marshal (p : EPMPolicy) : String :=
  renderObj [("id", .str p.ID), ("name", .str p.Name), ("rules", .str p.Rules)]

end models

/-- EPM DynamoDB tables are named per call, so records are keyed by the
pair (table name, id). -/
abbrev EPMTable (α : Type) := List ((String × String) × α)

/-- Lookup by (table, id) key in an EPM table. -/
def EPMTable.get (t : EPMTable α) (tableName id : String) : Option α :=
  (t.find? (fun p => p.1 == (tableName, id))).map (fun p => p.2)

/-- Unconditional `PutItem` into an EPM table, replacing the record under
the same (table, id) key. -/
def EPMTable.put (t : EPMTable α) (tableName id : String) (a : α) : EPMTable α :=
  ((tableName, id), a) :: t.filter (fun p => p.1 != (tableName, id))

/-- State threaded through the EPM service: the policy and audit tables
and the Kafka producer history. -/
structure EPMState where
  policies : EPMTable models.EPMPolicy
  audits : EPMTable models.EPMAudit
  kafka : KafkaLog
deriving DecidableEq, Repr

namespace DynamoDBRepo

/-- `DynamoDBRepo.SavePolicy`: marshal and `PutItem` into `tableName`. -/
def SavePolicy (storeOk : Bool) (s : EPMState) (tableName : String)
    (p : models.EPMPolicy) : Except Err EPMState :=
  if storeOk then .ok { s with policies := s.policies.put tableName p.ID p }
  else .error .storeUnavailable

/-- `DynamoDBRepo.GetPolicy`: `GetItem` keyed on `id`; a nil item yields
the not-found error. -/
def GetPolicy (storeOk : Bool) (s : EPMState) (tableName policyID : String) :
    Except Err models.EPMPolicy :=
  if storeOk then
    match s.policies.get tableName policyID with
    | some p => .ok p
    | none => .error .userNotFound
  else .error .storeUnavailable

/-- `DynamoDBRepo.SaveAudit`: marshal and `PutItem` into `tableName`. -/
def SaveAudit (storeOk : Bool) (s : EPMState) (tableName : String)
    (a : models.EPMAudit) : Except Err EPMState :=
  if storeOk then .ok { s with audits := s.audits.put tableName a.ID a }
  else .error .storeUnavailable

/-- `DynamoDBRepo.GetAudit`: `GetItem` keyed on `id`. -/
def GetAudit (storeOk : Bool) (s : EPMState) (tableName auditID : String) :
    Except Err models.EPMAudit :=
  if storeOk then
    match s.audits.get tableName auditID with
    | some a => .ok a
    | none => .error .userNotFound
  else .error .storeUnavailable

end DynamoDBRepo

namespace EPMService

/-- `EPMService.publishEvent(eventType, policy)`: marshals the policy,
calls `PublishEvent(eventType, msg)` and only logs a failure. -/
def publishEvent (publishOk : Bool) (s : EPMState) (eventType : String)
    (p : models.EPMPolicy) : EPMState :=
  let msg := p.marshal
  let r := KafkaProducer.PublishEvent publishOk s.kafka eventType msg
  { s with kafka := r.1 }

/-- `EPMService.CreatePolicy`: commit via `SavePolicy`; publish a
`create_policy` event only when the commit returned nil; return the
commit error. -/
def CreatePolicy (storeOk publishOk : Bool) (s : EPMState) (tableName : String)
    (p : models.EPMPolicy) : EPMState × Option Err :=
  match DynamoDBRepo.SavePolicy storeOk s tableName p with
  | .ok s1 => (publishEvent publishOk s1 "create_policy" p, none)
  | .error e => (s, some e)

/-- `EPMService.GetPolicy`: `return s.repo.GetPolicy(ctx, tableName, policyID)`. -/
def GetPolicy (storeOk : Bool) (s : EPMState) (tableName policyID : String) :
    EPMState × Except Err models.EPMPolicy :=
  (s, DynamoDBRepo.GetPolicy storeOk s tableName policyID)

/-- `EPMService.LogAudit`: `return s.repo.SaveAudit(ctx, tableName, audit)` —
a bare commit, never followed by a publish. -/
def LogAudit (storeOk : Bool) (s : EPMState) (tableName : String)
    (a : models.EPMAudit) : EPMState × Option Err :=
  match DynamoDBRepo.SaveAudit storeOk s tableName a with
  | .ok s1 => (s1, none)
  | .error e => (s, some e)

end EPMService

/-! Fixtures used by witnesses and counterexamples: the spec's scenario
entity `{id:"1", name:"Ann"}` and an initially empty service. -/

/-- The spec's scenario entity, as a `models.User`. -/
def annUser : models.User := ⟨"1", "Ann", "", none⟩

/-- Service state with an empty store and an empty Kafka history. -/
def emptyService : ServiceState := ⟨[], ⟨[], []⟩⟩

/-! Lemmas about the store model. -/

/-- Lookup on a cons cell checks the head key first. -/
theorem Store.get_cons (k : String) (v : models.User) (t : Store) (id : String) :
    Store.get ((k, v) :: t) id = if k == id then some v else Store.get t id := by
  by_cases h : k == id <;>
    simp [Store.get, List.find?_cons_of_pos, List.find?_cons_of_neg, h]

/-- After deleting `id`, looking up `id` finds nothing. -/
theorem Store.get_del_self (st : Store) (id : String) : (st.del id).get id = none := by
  induction st with
  | nil => rfl
  | cons p t ih =>
    obtain ⟨k, v⟩ := p
    by_cases h : k = id
    · simpa [Store.del, List.filter_cons, h] using ih
    · simpa [Store.del, List.filter_cons, h, Store.get_cons] using ih

/-- After `put u`, looking up `u.ID` returns `u`. -/
theorem Store.get_put_self (st : Store) (u : models.User) :
    (st.put u).get u.ID = some u := by
  simp [Store.put, Store.get_cons]

/-- Deleting the same id twice equals deleting it once. -/
theorem Store.del_del_self (st : Store) (id : String) :
    (st.del id).del id = st.del id := by
  simp [Store.del, List.filter_filter]

/-- Lookup on a cons cell of an EPM table checks the head key first. -/
theorem EPMTable.epm_get_cons (k : String × String) (v : α) (t : EPMTable α)
    (tableName id : String) :
    EPMTable.get ((k, v) :: t) tableName id =
      if k == (tableName, id) then some v else EPMTable.get t tableName id := by
  by_cases h : k == (tableName, id) <;>
    simp [EPMTable.get, List.find?_cons_of_pos, List.find?_cons_of_neg, h]

/-- After `put tableName id a`, looking up `(tableName, id)` returns `a`. -/
theorem EPMTable.epm_get_put_self (t : EPMTable α) (tableName id : String) (a : α) :
    (t.put tableName id a).get tableName id = some a := by
  simp [EPMTable.put, EPMTable.epm_get_cons]

/-- C1: for CreateUser, UpdateUser and DeleteUser, if the commit-phase
repository call returns an error, the orchestrator returns that error
with the state untouched, and no message is ever handed to the Kafka
producer (the attempt log is unchanged, i.e. `PublishEvent` is not
invoked). -/
theorem commit_failure_returns_error_and_never_publishes
    (storeOk publishOk : Bool) (s : ServiceState) (u : models.User)
    (id : String) (e : Err) :
    (DynamoUserRepository.CreateUser storeOk s.store u = .error e →
      UserService.CreateUser storeOk publishOk s u = (s, some e)) ∧
    (DynamoUserRepository.UpdateUser storeOk s.store u = .error e →
      UserService.UpdateUser storeOk publishOk s u = (s, some e)) ∧
    (DynamoUserRepository.DeleteUser storeOk s.store id = .error e →
      UserService.DeleteUser storeOk publishOk s id = (s, some e)) := by
  refine ⟨fun h => ?_, fun h => ?_, fun h => ?_⟩ <;>
    cases storeOk <;>
      simp_all [UserService.CreateUser, UserService.UpdateUser, UserService.DeleteUser,
        DynamoUserRepository.CreateUser, DynamoUserRepository.UpdateUser,
        DynamoUserRepository.DeleteUser]

/-- Witness for C1 at a concrete input: an unreachable store makes
CreateUser return `storeUnavailable` and leaves the Kafka attempt log
empty. -/
theorem commit_failure_returns_error_and_never_publishes_witness :
    UserService.CreateUser false true emptyService annUser =
      (emptyService, some .storeUnavailable) :=
  (commit_failure_returns_error_and_never_publishes false true emptyService
    annUser "1" .storeUnavailable).1 rfl

/-- C2: for CreateUser, UpdateUser and DeleteUser, if the commit-phase
repository call succeeds, the orchestrator returns nil whatever the
outcome of the subsequent publish (`publishOk` is universally
quantified and absent from the conclusion). -/
theorem commit_success_reports_success_despite_publish_failure
    (storeOk publishOk : Bool) (s : ServiceState) (u : models.User)
    (id : String) (st₁ st₂ st₃ : Store) :
    (DynamoUserRepository.CreateUser storeOk s.store u = .ok st₁ →
      (UserService.CreateUser storeOk publishOk s u).2 = none) ∧
    (DynamoUserRepository.UpdateUser storeOk s.store u = .ok st₂ →
      (UserService.UpdateUser storeOk publishOk s u).2 = none) ∧
    (DynamoUserRepository.DeleteUser storeOk s.store id = .ok st₃ →
      (UserService.DeleteUser storeOk publishOk s id).2 = none) := by
  cases storeOk <;>
    simp [UserService.CreateUser, UserService.UpdateUser, UserService.DeleteUser,
      DynamoUserRepository.CreateUser, DynamoUserRepository.UpdateUser,
      DynamoUserRepository.DeleteUser]

/-- Witness for C2 at a concrete input: with a reachable store but a
failing Kafka transport, CreateUser still returns nil. -/
theorem commit_success_reports_success_despite_publish_failure_witness :
    (UserService.CreateUser true false emptyService annUser).2 = none :=
  (commit_success_reports_success_despite_publish_failure true false
    emptyService annUser "1" (Store.put [] annUser) [] []).1 rfl

/-- C3 counterexample: the Kafka message key handed to the producer is
the event-type string, not the subject entity's id.  Creating the
scenario entity `{id:"1"}` delivers exactly one message whose key is
`create_user`, which differs from the subject id `"1"`. -/
theorem partition_key_not_subject_id :
    (UserService.CreateUser true true emptyService annUser).1.kafka.delivered =
      [⟨"create_user", annUser.marshal⟩] ∧
    annUser.ID = "1" ∧ "create_user" ≠ "1" := by
  refine ⟨rfl, rfl, by decide⟩

/-- C3 amended: the key of every message handed to the Event Publisher
is the operation's event-type string (`create_user`, `update_user`,
`delete_user`), not the subject id; per-entity key ordering is therefore
not what the publisher receives. -/
theorem partition_key_is_event_type (publishOk : Bool) (s : ServiceState)
    (u : models.User) (id : String) :
    (UserService.CreateUser true publishOk s u).1.kafka.attempts =
      s.kafka.attempts ++ [⟨"create_user", u.marshal⟩] ∧
    (UserService.UpdateUser true publishOk s u).1.kafka.attempts =
      s.kafka.attempts ++ [⟨"update_user", u.marshal⟩] ∧
    (UserService.DeleteUser true publishOk s id).1.kafka.attempts =
      s.kafka.attempts ++ [⟨"delete_user", models.User.marshal ⟨id, "", "", none⟩⟩] := by
  cases publishOk <;>
    simp [UserService.CreateUser, UserService.UpdateUser, UserService.DeleteUser,
      UserService.publishEvent, KafkaProducer.PublishEvent,
      DynamoUserRepository.CreateUser, DynamoUserRepository.UpdateUser,
      DynamoUserRepository.DeleteUser]

/-- C4 counterexample: `DeleteUser("missing")` publishes a payload that
serializes the whole `models.User` zero value, so the wire payload
carries `name`, `email` and `policies` besides `id` — not a payload with
only the `id` field. -/
theorem delete_payload_not_minimal_tombstone :
    (UserService.DeleteUser true true emptyService "missing").1.kafka.delivered =
      [⟨"delete_user",
        "\x7b\"id\":\"missing\",\"name\":\"\",\"email\":\"\",\"policies\":null\x7d"⟩] ∧
    (models.User.jsonFields ⟨"missing", "", "", none⟩).map Prod.fst =
      ["id", "name", "email", "policies"] ∧
    (models.User.jsonFields ⟨"missing", "", "", none⟩).map Prod.fst ≠ ["id"] := by
  refine ⟨rfl, rfl, by decide⟩

/-- C4 amended: the event published by DeleteUser carries as payload the
serialization of `models.User{ID: id}`: the id plus zero-valued `name`
and `email` fields and a `null` `policies` field, not an id-only
tombstone. -/
theorem delete_payload_is_zero_valued_user (publishOk : Bool)
    (s : ServiceState) (id : String) :
    (UserService.DeleteUser true publishOk s id).1.kafka.attempts =
      s.kafka.attempts ++
        [⟨"delete_user", renderObj (models.User.jsonFields ⟨id, "", "", none⟩)⟩] ∧
    (models.User.jsonFields ⟨id, "", "", none⟩).map Prod.fst =
      ["id", "name", "email", "policies"] := by
  cases publishOk <;>
    simp [UserService.DeleteUser, UserService.publishEvent,
      KafkaProducer.PublishEvent, DynamoUserRepository.DeleteUser,
      models.User.marshal, models.User.jsonFields]

/-- C5 counterexample: the scenario create publishes event type
`create_user`, which is outside the claimed enum
`{create, update, delete}`, and the message value is the bare serialized
entity — its top-level fields are the `models.User` fields, with no
`event_type` or `subject_id` envelope fields. -/
theorem event_shape_has_no_envelope :
    (UserService.CreateUser true true emptyService annUser).1.kafka.delivered =
      [⟨"create_user", renderObj annUser.jsonFields⟩] ∧
    "create_user" ∉ (["create", "update", "delete"] : List String) ∧
    (annUser.jsonFields.map Prod.fst).contains "event_type" = false ∧
    (annUser.jsonFields.map Prod.fst).contains "subject_id" = false := by
  refine ⟨rfl, by decide, by decide, by decide⟩

/-- C5 amended: each operation publishes an event whose type is drawn
from `{create_user, update_user, delete_user}` and matches the
operation, carried as the Kafka message key; the message value is the
bare serialized entity snapshot (for delete, the zero-valued user), with
no `event_type`/`subject_id`/`payload` envelope. -/
theorem event_type_matches_operation (publishOk : Bool) (s : ServiceState)
    (u : models.User) (id : String) :
    ((UserService.CreateUser true publishOk s u).1.kafka.attempts.getLast? =
        some ⟨"create_user", renderObj u.jsonFields⟩ ∧
      "create_user" ∈ (["create_user", "update_user", "delete_user"] : List String)) ∧
    ((UserService.UpdateUser true publishOk s u).1.kafka.attempts.getLast? =
        some ⟨"update_user", renderObj u.jsonFields⟩ ∧
      "update_user" ∈ (["create_user", "update_user", "delete_user"] : List String)) ∧
    ((UserService.DeleteUser true publishOk s id).1.kafka.attempts.getLast? =
        some ⟨"delete_user", renderObj (models.User.jsonFields ⟨id, "", "", none⟩)⟩ ∧
      "delete_user" ∈ (["create_user", "update_user", "delete_user"] : List String)) := by
  cases publishOk <;>
    simp [UserService.CreateUser, UserService.UpdateUser, UserService.DeleteUser,
      UserService.publishEvent, KafkaProducer.PublishEvent,
      DynamoUserRepository.CreateUser, DynamoUserRepository.UpdateUser,
      DynamoUserRepository.DeleteUser, models.User.marshal]

/-- C6: UpdateUser has identical store semantics to CreateUser — the
repository method is definitionally `CreateUser` — and at the
orchestrator level an update on a nonexistent id succeeds and makes the
id readable with the updated value (upsert law). -/
theorem update_has_create_semantics (storeOk publishOk : Bool) (st : Store)
    (s : ServiceState) (u : models.User) :
    DynamoUserRepository.UpdateUser storeOk st u =
      DynamoUserRepository.CreateUser storeOk st u ∧
    (Store.get s.store u.ID = none →
      (UserService.UpdateUser true publishOk s u).2 = none ∧
      DynamoUserRepository.GetUser true
        (UserService.UpdateUser true publishOk s u).1.store u.ID = .ok u) := by
  refine ⟨rfl, fun _ => ⟨?_, ?_⟩⟩
  · cases publishOk <;> rfl
  · have hst : (UserService.UpdateUser true publishOk s u).1.store = s.store.put u := by
      cases publishOk <;> rfl
    rw [hst]
    simp [DynamoUserRepository.GetUser, Store.get_put_self]

/-- Witness for C6 at a concrete input: updating the scenario entity in
an empty store succeeds and a subsequent read returns it. -/
theorem update_has_create_semantics_witness :
    (UserService.UpdateUser true true emptyService annUser).2 = none ∧
    DynamoUserRepository.GetUser true
      (UserService.UpdateUser true true emptyService annUser).1.store "1" = .ok annUser := by
  have h := (update_has_create_semantics true true [] emptyService annUser).2 rfl
  exact ⟨h.1, h.2⟩

/-- C7: creating a valid entity and then reading back its id on the
Record Store returns a value equal to that entity. -/
theorem create_then_read_returns_entity (st st' : Store) (u : models.User)
    (h : DynamoUserRepository.CreateUser true st u = .ok st') :
    DynamoUserRepository.GetUser true st' u.ID = .ok u := by
  have h' : st.put u = st' := by
    simpa [DynamoUserRepository.CreateUser] using h
  subst h'
  simp [DynamoUserRepository.GetUser, Store.get_put_self]

/-- Witness for C7 at a concrete input: create the scenario entity in an
empty store, then read id `"1"` back. -/
theorem create_then_read_returns_entity_witness :
    DynamoUserRepository.GetUser true (Store.put [] annUser) "1" = .ok annUser :=
  create_then_read_returns_entity [] (Store.put [] annUser) annUser rfl

/-- C8: Delete is idempotent on the Record Store: both consecutive
deletes of any id succeed, they produce the same store, and a read of
that id afterwards fails with the not-found error. -/
theorem delete_twice_idempotent_then_notfound (st : Store) (id : String) :
    DynamoUserRepository.DeleteUser true st id = .ok (st.del id) ∧
    DynamoUserRepository.DeleteUser true (st.del id) id = .ok (st.del id) ∧
    DynamoUserRepository.GetUser true (st.del id) id = .error .userNotFound := by
  refine ⟨rfl, ?_, ?_⟩
  · simp [DynamoUserRepository.DeleteUser, Store.del_del_self]
  · simp [DynamoUserRepository.GetUser, Store.get_del_self]

/-- C9: the orchestrator's GetUser is a pure read: the state (store and
Kafka history) is returned untouched and the result is exactly the
repository's read — the record when present, the not-found error when
absent, the store-unavailability error on I/O failure. -/
theorem getuser_is_pure_read (storeOk : Bool) (s : ServiceState) (id : String)
    (u : models.User) :
    UserService.GetUser storeOk s id =
      (s, DynamoUserRepository.GetUser storeOk s.store id) ∧
    (UserService.GetUser storeOk s id).1.kafka.attempts = s.kafka.attempts ∧
    (UserService.GetUser false s id).2 = .error .storeUnavailable ∧
    (Store.get s.store id = some u → (UserService.GetUser true s id).2 = .ok u) ∧
    (Store.get s.store id = none →
      (UserService.GetUser true s id).2 = .error .userNotFound) := by
  refine ⟨rfl, rfl, rfl, fun h => ?_, fun h => ?_⟩ <;>
    simp [UserService.GetUser, DynamoUserRepository.GetUser, h]

/-- Witness for C9 at a concrete input: reading id `"1"` from a store
holding the scenario entity returns it. -/
theorem getuser_is_pure_read_witness :
    Store.get [("1", annUser)] "1" = some annUser ∧
    (UserService.GetUser true ⟨[("1", annUser)], ⟨[], []⟩⟩ "1").2 = .ok annUser := by
  refine ⟨rfl, ?_⟩
  exact (getuser_is_pure_read true ⟨[("1", annUser)], ⟨[], []⟩⟩ "1" annUser).2.2.2.1 rfl

/-- C10: EPMService.LogAudit commits the audit record (a subsequent
GetAudit returns it) and returns nil, but hands nothing to the Kafka
producer — its attempt log is unchanged for any store outcome — whereas
CreatePolicy publishes a `create_policy` event after a successful
commit. -/
theorem logaudit_commits_without_publishing (storeOk publishOk : Bool)
    (s : EPMState) (t : String) (a : models.EPMAudit) (p : models.EPMPolicy) :
    (EPMService.LogAudit true s t a).2 = none ∧
    (EPMService.LogAudit true s t a).1.kafka = s.kafka ∧
    DynamoDBRepo.GetAudit true (EPMService.LogAudit true s t a).1 t a.ID = .ok a ∧
    (EPMService.LogAudit storeOk s t a).1.kafka.attempts = s.kafka.attempts ∧
    (EPMService.CreatePolicy true publishOk s t p).1.kafka.attempts =
      s.kafka.attempts ++ [⟨"create_policy", p.marshal⟩] := by
  refine ⟨rfl, rfl, ?_, ?_, ?_⟩
  · simp [EPMService.LogAudit, DynamoDBRepo.SaveAudit, DynamoDBRepo.GetAudit,
      EPMTable.epm_get_put_self]
  · cases storeOk <;> rfl
  · cases publishOk <;>
      simp [EPMService.CreatePolicy, EPMService.publishEvent,
        DynamoDBRepo.SavePolicy, KafkaProducer.PublishEvent]
